import Mathlib

/-!
Shallow embedding of the Risk and Adaptive Exit Engine of the quant-trading
repository: src/core/risk.py, src/core/smart_stop.py, src/core/trader.py and
the trailing-stop logic of src/strategies/regime_switching.py.

Modelling conventions: Python floats are modelled as rationals, datetime
values as rational second counts, calendar dates as strings, and Python dicts
as insertion-ordered association lists.  Effectful inputs that the Python code
obtains from the clock, the quote fetcher or the kline fetcher (today, now,
ATR per symbol, market change, the near-close flag, broker responses) are
passed explicitly as parameters.  Division follows the Lean convention
x / 0 = 0; theorems whose meaning depends on a quotient carry a positivity
hypothesis mirroring the domain on which the Python code returns normally.
Formatted message strings are modelled structurally: a reason is a value of an
inductive type carrying the same numbers the Python f-strings interpolate.
-/

namespace QuantTrading

/-- Lookup in an insertion-ordered association list (a Python dict read). -/
def lookupKey {α : Type} : List (String × α) → String → Option α
  | [], _ => none
  | (k, v) :: rest, key => if k = key then some v else lookupKey rest key

/-- Python dict write: overwrite the entry in place, or append at the end. -/
def setKey {α : Type} : List (String × α) → String → α → List (String × α)
  | [], key, v => [(key, v)]
  | (k, w) :: rest, key, v =>
      if k = key then (key, v) :: rest else (k, w) :: setKey rest key v

/-- Python int() applied to a float: truncation toward zero. -/
def int_trunc (x : ℚ) : ℤ := if 0 ≤ x then ⌊x⌋ else -⌊-x⌋

/-- Python str.lower for the ASCII strings the engine compares. -/
def strLower (s : String) : String := ⟨s.data.map Char.toLower⟩

/-- RiskConfig of src/core/risk.py (risk limits; floats as rationals). -/
structure RiskConfig where
  max_trading_capital : Option ℚ
  max_single_position_pct : ℚ
  max_total_position_pct : ℚ
  min_cash_reserve_pct : ℚ
  default_stop_loss_pct : ℚ
  default_take_profit_pct : ℚ
  trailing_stop_enabled : Bool
  trailing_stop_pct : ℚ
  daily_loss_limit_pct : ℚ
  daily_trade_limit : ℤ
  max_order_value : ℚ
  min_order_value : ℚ
  order_cooldown_seconds : ℚ
deriving DecidableEq, Repr

/-- Default field values of RiskConfig in the source. -/
def RiskConfig.default : RiskConfig where
  max_trading_capital := none
  max_single_position_pct := 10/100
  max_total_position_pct := 80/100
  min_cash_reserve_pct := 20/100
  default_stop_loss_pct := 5/100
  default_take_profit_pct := 15/100
  trailing_stop_enabled := false
  trailing_stop_pct := 3/100
  daily_loss_limit_pct := 3/100
  daily_trade_limit := 20
  max_order_value := 50000
  min_order_value := 100
  order_cooldown_seconds := 60

/-- One per-day statistics record of RiskManager (dict with four keys). -/
structure DailyStats where
  trade_count : ℤ
  realized_pnl : ℚ
  buy_value : ℚ
  sell_value : ℚ
deriving DecidableEq, Repr

/-- The zero-initialised record that RiskManager creates on first access. -/
def DailyStats.init : DailyStats where
  trade_count := 0
  realized_pnl := 0
  buy_value := 0
  sell_value := 0

/-- Per-symbol stop levels (the dict may hold either key independently). -/
structure StopLevels where
  stop_loss : Option ℚ
  take_profit : Option ℚ
deriving DecidableEq, Repr

/-- The mutable in-memory state of RiskManager. -/
structure RMState where
  emergency_stop : Bool
  daily_stats : List (String × DailyStats)
  last_order_time : List (String × ℚ)
  position_stops : List (String × StopLevels)
deriving DecidableEq, Repr

/-- A position dict as produced by Trader.get_positions; market_value and
current_price are optional because the code reads them with dict.get and a
default of 0. -/
structure Position where
  symbol : String
  quantity : ℤ
  cost_price : ℚ
  market_value : Option ℚ
  current_price : Option ℚ
deriving DecidableEq, Repr

/-- TradeRecord of src/core/risk.py. -/
structure TradeRecord where
  id : String
  timestamp : String
  symbol : String
  side : String
  quantity : ℤ
  price : ℚ
  value : ℚ
  order_id : Option String
  status : String
  reason : String
  pnl : Option ℚ
deriving DecidableEq, Repr

/-- Structured form of the messages validate_order returns, carrying the
numbers that the Python f-strings interpolate into the text. -/
inductive ValidateMessage where
  | emergencyStopped
  | belowMinOrderValue (order_value min_value : ℚ)
  | aboveMaxOrderValue (order_value max_value : ℚ)
  | aboveSinglePositionLimit (order_value max_single_value : ℚ)
  | aboveTotalPositionLimit (new_total max_total_value : ℚ)
  | belowCashReserve (min_cash : ℚ)
  | dailyTradeLimitReached (limit : ℤ)
  | dailyLossLimitReached (limit_pct : ℚ)
  | cooldownActive (remaining : ℚ)
  | passed
deriving DecidableEq, Repr

/-- RiskManager.get_effective_balance: clip the balance to the configured
trading-capital cap when that cap is set and positive. -/
def get_effective_balance (cfg : RiskConfig) (account_balance : ℚ) : ℚ :=
  match cfg.max_trading_capital with
  | some c => if 0 < c then min account_balance c else account_balance
  | none => account_balance

/-- RiskManager._get_daily_stats: return the day entry, creating a
zero-initialised entry first when the day is absent.  The pair carries the
entry and the possibly extended map. -/
def get_daily_stats_lazy (m : List (String × DailyStats)) (day : String) :
    DailyStats × List (String × DailyStats) :=
  match lookupKey m day with
  | some ds => (ds, m)
  | none => (DailyStats.init, setKey m day DailyStats.init)

/-- View of the daily-stats map as RiskManager.get_daily_stats reports it:
the stored entry, or the zero record for a day never touched. -/
def getDaily (m : List (String × DailyStats)) (day : String) : DailyStats :=
  (lookupKey m day).getD DailyStats.init

/-- RiskManager.validate_order.  The Python method reads the clock twice
(date.today and datetime.now); both readings are parameters here.  The state
in the returned triple reflects the lazy creation that _get_daily_stats
performs at check 6; every other field is untouched by the source. -/
def validate_order (cfg : RiskConfig) (s : RMState) (symbol side : String)
    (quantity : ℤ) (price account_balance : ℚ)
    (current_positions : List Position) (today : String) (now : ℚ) :
    RMState × Bool × ValidateMessage :=
  if s.emergency_stop then (s, false, .emergencyStopped)
  else
    let effective_balance := get_effective_balance cfg account_balance
    let order_value := (quantity : ℚ) * price
    if order_value < cfg.min_order_value then
      (s, false, .belowMinOrderValue order_value cfg.min_order_value)
    else if cfg.max_order_value < order_value then
      (s, false, .aboveMaxOrderValue order_value cfg.max_order_value)
    else
      let max_single_value := effective_balance * cfg.max_single_position_pct
      if max_single_value < order_value then
        (s, false, .aboveSinglePositionLimit order_value max_single_value)
      else
        let position_value :=
          (current_positions.map (fun p => p.market_value.getD 0)).sum
        let new_total := position_value + order_value
        let max_total_value := effective_balance * cfg.max_total_position_pct
        if strLower side = "buy" ∧ max_total_value < new_total then
          (s, false, .aboveTotalPositionLimit new_total max_total_value)
        else
          let min_cash := effective_balance * cfg.min_cash_reserve_pct
          let available_cash := effective_balance - position_value
          if strLower side = "buy" ∧ available_cash - order_value < min_cash then
            (s, false, .belowCashReserve min_cash)
          else
            let dsm := get_daily_stats_lazy s.daily_stats today
            let daily := dsm.1
            let s1 : RMState := { s with daily_stats := dsm.2 }
            if cfg.daily_trade_limit ≤ daily.trade_count then
              (s1, false, .dailyTradeLimitReached cfg.daily_trade_limit)
            else if daily.realized_pnl < 0 ∧
                cfg.daily_loss_limit_pct ≤
                  |daily.realized_pnl| / effective_balance then
              (s1, false, .dailyLossLimitReached cfg.daily_loss_limit_pct)
            else
              match lookupKey s.last_order_time symbol with
              | some t =>
                  if now - t < cfg.order_cooldown_seconds then
                    (s1, false,
                      .cooldownActive (cfg.order_cooldown_seconds - (now - t)))
                  else (s1, true, .passed)
              | none => (s1, true, .passed)

/-- RiskManager.record_trade restricted to its in-memory effect: bump the
day counters, and stamp the cooldown clock of the traded symbol. -/
def record_trade (today : String) (now : ℚ) (trade : TradeRecord)
    (s : RMState) : RMState :=
  let dsm := get_daily_stats_lazy s.daily_stats today
  let d0 := dsm.1
  let d1 : DailyStats := { d0 with trade_count := d0.trade_count + 1 }
  let d2 : DailyStats :=
    match trade.pnl with
    | some p => { d1 with realized_pnl := d1.realized_pnl + p }
    | none => d1
  let d3 : DailyStats :=
    if trade.side = "buy" then { d2 with buy_value := d2.buy_value + trade.value }
    else { d2 with sell_value := d2.sell_value + trade.value }
  { s with
    daily_stats := setKey dsm.2 today d3
    last_order_time := setKey s.last_order_time trade.symbol now }

/-- RiskManager.calculate_position_size.  Python raises ZeroDivisionError at
price 0, hence the Option result; the or-defaulting of risk_pct treats an
explicit 0 as absent, exactly as the Python or operator does. -/
def calculate_position_size (cfg : RiskConfig) (symbol : String)
    (price account_balance : ℚ) (risk_pct : Option ℚ) : Option ℤ :=
  if price = 0 then none
  else
    let effective_balance := get_effective_balance cfg account_balance
    let rp :=
      match risk_pct with
      | some r => if r = 0 then cfg.max_single_position_pct else r
      | none => cfg.max_single_position_pct
    let max_value := min (effective_balance * rp) cfg.max_order_value
    let quantity := int_trunc (max_value / price)
    some (max 0 quantity)

/-- RiskManager.set_stop_loss restricted to its in-memory effect. -/
def set_stop_loss (s : RMState) (symbol : String) (p : ℚ) : RMState :=
  let cur := (lookupKey s.position_stops symbol).getD ⟨none, none⟩
  { s with position_stops :=
      setKey s.position_stops symbol { cur with stop_loss := some p } }

/-- RiskManager.set_take_profit restricted to its in-memory effect. -/
def set_take_profit (s : RMState) (symbol : String) (p : ℚ) : RMState :=
  let cur := (lookupKey s.position_stops symbol).getD ⟨none, none⟩
  { s with position_stops :=
      setKey s.position_stops symbol { cur with take_profit := some p } }

/-- RiskManager.set_stops_from_cost: derive both levels from the cost basis
and store them; returns the pair together with the new state. -/
def set_stops_from_cost (cfg : RiskConfig) (s : RMState) (symbol : String)
    (cost_price : ℚ) : RMState × ℚ × ℚ :=
  let stop_loss := cost_price * (1 - cfg.default_stop_loss_pct)
  let take_profit := cost_price * (1 + cfg.default_take_profit_pct)
  (set_take_profit (set_stop_loss s symbol stop_loss) symbol take_profit,
   stop_loss, take_profit)

/-- RiskLevel of src/core/risk.py. -/
inductive RiskLevel where
  | low
  | medium
  | high
  | critical
deriving DecidableEq, Repr

/-- PositionRisk of src/core/risk.py. -/
structure PositionRisk where
  symbol : String
  quantity : ℤ
  cost_price : ℚ
  current_price : ℚ
  market_value : ℚ
  unrealized_pnl : ℚ
  unrealized_pnl_pct : ℚ
  stop_loss_price : ℚ
  take_profit_price : ℚ
  risk_level : RiskLevel
deriving DecidableEq, Repr

/-- PositionRisk.should_stop_loss. -/
def PositionRisk.should_stop_loss (r : PositionRisk) : Bool :=
  decide (r.current_price ≤ r.stop_loss_price)

/-- PositionRisk.should_take_profit. -/
def PositionRisk.should_take_profit (r : PositionRisk) : Bool :=
  decide (r.take_profit_price ≤ r.current_price)

/-- RiskManager.check_position_risk. -/
def check_position_risk (cfg : RiskConfig) (s : RMState) (symbol : String)
    (quantity : ℤ) (cost_price current_price : ℚ) : PositionRisk :=
  let market_value := (quantity : ℚ) * current_price
  let cost_value := (quantity : ℚ) * cost_price
  let unrealized_pnl := market_value - cost_value
  let unrealized_pnl_pct :=
    if 0 < cost_value then unrealized_pnl / cost_value else 0
  let stops := (lookupKey s.position_stops symbol).getD ⟨none, none⟩
  let stop_loss_price :=
    stops.stop_loss.getD (cost_price * (1 - cfg.default_stop_loss_pct))
  let take_profit_price :=
    stops.take_profit.getD (cost_price * (1 + cfg.default_take_profit_pct))
  let risk_level :=
    if unrealized_pnl_pct ≤ -cfg.default_stop_loss_pct then RiskLevel.critical
    else if unrealized_pnl_pct ≤ -(3/100) then RiskLevel.high
    else if unrealized_pnl_pct ≤ -(1/100) then RiskLevel.medium
    else RiskLevel.low
  { symbol := symbol
    quantity := quantity
    cost_price := cost_price
    current_price := current_price
    market_value := market_value
    unrealized_pnl := unrealized_pnl
    unrealized_pnl_pct := unrealized_pnl_pct
    stop_loss_price := stop_loss_price
    take_profit_price := take_profit_price
    risk_level := risk_level }

/-- The price resolution used by RiskManager.scan_positions_for_exit:
quotes.get(symbol, pos.get(current_price, 0)). -/
def resolve_price_risk (quotes : List (String × ℚ)) (pos : Position) : ℚ :=
  (lookupKey quotes pos.symbol).getD (pos.current_price.getD 0)

/-- RiskManager.scan_positions_for_exit: build the list of PositionRisk
snapshots that demand a stop-loss or take-profit, skipping every position
whose resolved price is not positive. -/
def scan_positions_for_exit (cfg : RiskConfig) (s : RMState)
    (positions : List Position) (quotes : List (String × ℚ)) :
    List PositionRisk :=
  positions.foldr
    (fun pos acc =>
      let current_price := resolve_price_risk quotes pos
      if current_price ≤ 0 then acc
      else
        let risk := check_position_risk cfg s pos.symbol pos.quantity
          pos.cost_price current_price
        if risk.should_stop_loss || risk.should_take_profit then risk :: acc
        else acc)
    []

/-- The JSON payload RiskManager._save_state writes to risk_state.json.
Note that last_order_time is not part of it. -/
structure PersistedRiskState where
  emergency_stop : Bool
  daily_stats : List (String × DailyStats)
  position_stops : List (String × StopLevels)
deriving DecidableEq, Repr

/-- One audit line of risk_events.jsonl (timestamps abstracted away). -/
inductive RiskEvent where
  | emergencyStopEvent (reason : String)
  | resumeTradingEvent
deriving DecidableEq, Repr

/-- The world a RiskManager interacts with: its in-memory state, the state
file and the append-only audit log. -/
structure RMWorld where
  mem : RMState
  state_file : PersistedRiskState
  events_log : List RiskEvent
deriving DecidableEq, Repr

/-- RiskManager._save_state: flush the three persisted fields to the file. -/
def save_state (w : RMWorld) : RMWorld :=
  { w with state_file :=
      { emergency_stop := w.mem.emergency_stop
        daily_stats := w.mem.daily_stats
        position_stops := w.mem.position_stops } }

/-- RiskManager.emergency_stop: set the flag and append the audit event.
The source does not call _save_state here, so the state file is untouched. -/
def emergency_stop_op (reason : String) (w : RMWorld) : RMWorld :=
  { w with
    mem := { w.mem with emergency_stop := true }
    events_log := w.events_log ++ [RiskEvent.emergencyStopEvent reason] }

/-- RiskManager.resume_trading: clear the flag and append the audit event.
The source does not call _save_state here either. -/
def resume_trading_op (w : RMWorld) : RMWorld :=
  { w with
    mem := { w.mem with emergency_stop := false }
    events_log := w.events_log ++ [RiskEvent.resumeTradingEvent] }

/-- Construction of a RiskManager from an existing state file:
_load_state restores the three persisted fields, while the cooldown map
always starts empty. -/
def load_state (f : PersistedRiskState) : RMState :=
  { emergency_stop := f.emergency_stop
    daily_stats := f.daily_stats
    last_order_time := []
    position_stops := f.position_stops }

/-- StopDecision of src/core/smart_stop.py. -/
inductive StopDecision where
  | hold
  | stop_loss
  | take_profit
deriving DecidableEq, Repr

/-- StopVote of src/core/smart_stop.py; the numeric interpolation inside the
Python reason strings is abstracted to a fixed label per return site. -/
structure StopVote where
  strategy : String
  decision : StopDecision
  reason : String
  confidence : ℚ
deriving DecidableEq, Repr

/-- SmartStopConfig of src/core/smart_stop.py. -/
structure SmartStopConfig where
  atr_period : ℤ
  atr_multiplier : ℚ
  min_stop_pct : ℚ
  max_stop_pct : ℚ
  use_close_only : Bool
  close_tolerance_minutes : ℤ
  market_benchmark : String
  market_correlation_threshold : ℚ
  market_drop_buffer : ℚ
  vote_threshold : ℤ
  take_profit_pct : ℚ
deriving DecidableEq, Repr

/-- Default field values of SmartStopConfig in the source. -/
def SmartStopConfig.default : SmartStopConfig where
  atr_period := 14
  atr_multiplier := 5/2
  min_stop_pct := 3/100
  max_stop_pct := 15/100
  use_close_only := true
  close_tolerance_minutes := 30
  market_benchmark := "SPY.US"
  market_correlation_threshold := 1/2
  market_drop_buffer := 6/5
  vote_threshold := 2
  take_profit_pct := 15/100

/-- The effectful readings SmartStopManager makes during one evaluation:
calculate_atr per symbol (kline fetch plus one-hour cache),
is_near_market_close (wall clock) and get_market_change (benchmark quote
plus five-minute cache). -/
structure StopEnv where
  atrOf : String → ℚ
  is_close_time : Bool
  market_change : ℚ

/-- SmartStopManager.get_adaptive_stop_loss. -/
def get_adaptive_stop_loss (cfg : SmartStopConfig) (env : StopEnv)
    (symbol : String) (cost_price : ℚ) : ℚ :=
  let atr := env.atrOf symbol
  if atr ≤ 0 then cost_price * (1 - 5/100)
  else
    let atr_stop_distance := atr * cfg.atr_multiplier
    let atr_stop_pct := atr_stop_distance / cost_price
    let stop_pct := max cfg.min_stop_pct (min cfg.max_stop_pct atr_stop_pct)
    cost_price * (1 - stop_pct)

/-- SmartStopManager.vote_atr_stop. -/
def vote_atr_stop (cfg : SmartStopConfig) (env : StopEnv) (symbol : String)
    (cost_price current_price : ℚ) : StopVote :=
  let adaptive_stop := get_adaptive_stop_loss cfg env symbol cost_price
  let pnl_pct := (current_price - cost_price) / cost_price
  if cfg.take_profit_pct ≤ pnl_pct then
    { strategy := "ATR自适应", decision := .take_profit
      reason := "盈利达到止盈线", confidence := 9/10 }
  else if current_price ≤ adaptive_stop then
    { strategy := "ATR自适应", decision := .stop_loss
      reason := "价格不高于ATR止损线", confidence := 8/10 }
  else
    { strategy := "ATR自适应", decision := .hold
      reason := "价格高于ATR止损线", confidence := 8/10 }

/-- SmartStopManager.vote_close_only. -/
def vote_close_only (cfg : SmartStopConfig) (env : StopEnv) (symbol : String)
    (cost_price current_price : ℚ) (force_check : Bool) : StopVote :=
  let is_close_time := env.is_close_time || force_check
  if !is_close_time && cfg.use_close_only then
    { strategy := "收盘价止损", decision := .hold
      reason := "非收盘时段", confidence := 1 }
  else
    let close_stop_pct : ℚ := 8/100
    let close_stop_price := cost_price * (1 - close_stop_pct)
    let pnl_pct := (current_price - cost_price) / cost_price
    if cfg.take_profit_pct ≤ pnl_pct then
      { strategy := "收盘价止损", decision := .take_profit
        reason := "收盘盈利达到止盈线", confidence := 9/10 }
    else if current_price ≤ close_stop_price then
      { strategy := "收盘价止损", decision := .stop_loss
        reason := "收盘价低于止损线", confidence := 85/100 }
    else
      { strategy := "收盘价止损", decision := .hold
        reason := "收盘价在安全范围内", confidence := 85/100 }

/-- SmartStopManager.vote_relative_market. -/
def vote_relative_market (cfg : SmartStopConfig) (env : StopEnv)
    (symbol : String) (cost_price current_price : ℚ) : StopVote :=
  let market_change := env.market_change
  let stock_change := (current_price - cost_price) / cost_price
  let excess_drop := stock_change - market_change
  let base_stop : ℚ := 5/100
  let adjusted_stop :=
    if market_change < 0 then
      min (base_stop + |market_change| * cfg.market_drop_buffer)
        cfg.max_stop_pct
    else base_stop
  if cfg.take_profit_pct ≤ stock_change then
    { strategy := "相对大盘", decision := .take_profit
      reason := "盈利达到止盈线", confidence := 9/10 }
  else if excess_drop < -adjusted_stop then
    { strategy := "相对大盘", decision := .stop_loss
      reason := "超额跌幅超过调整止损线", confidence := 75/100 }
  else
    { strategy := "相对大盘", decision := .hold
      reason := "超额跌幅在容忍范围内", confidence := 75/100 }

/-- The details dict that SmartStopManager.evaluate returns. -/
structure SmartStopDetails where
  cost_price : ℚ
  current_price : ℚ
  pnl_pct : ℚ
  atr : ℚ
  atr_stop : ℚ
  market_change : ℚ
deriving DecidableEq, Repr

/-- SmartStopResult of src/core/smart_stop.py. -/
structure SmartStopResult where
  symbol : String
  final_decision : StopDecision
  votes : List StopVote
  vote_summary : String
  details : SmartStopDetails
deriving DecidableEq, Repr

/-- SmartStopResult.should_exit. -/
def SmartStopResult.should_exit (r : SmartStopResult) : Bool :=
  decide (r.final_decision = .stop_loss) || decide (r.final_decision = .take_profit)

/-- SmartStopManager.evaluate: collect the three votes and combine them by
counting against vote_threshold, take-profit counted first. -/
def evaluate (cfg : SmartStopConfig) (env : StopEnv) (symbol : String)
    (cost_price current_price : ℚ) (force_close_check : Bool) :
    SmartStopResult :=
  let votes := [vote_atr_stop cfg env symbol cost_price current_price,
                vote_close_only cfg env symbol cost_price current_price
                  force_close_check,
                vote_relative_market cfg env symbol cost_price current_price]
  let stop_votes := votes.countP (fun v => decide (v.decision = .stop_loss))
  let profit_votes := votes.countP (fun v => decide (v.decision = .take_profit))
  let hold_votes := votes.countP (fun v => decide (v.decision = .hold))
  let final_decision :=
    if cfg.vote_threshold ≤ (profit_votes : ℤ) then StopDecision.take_profit
    else if cfg.vote_threshold ≤ (stop_votes : ℤ) then StopDecision.stop_loss
    else StopDecision.hold
  let pnl_pct := (current_price - cost_price) / cost_price
  { symbol := symbol
    final_decision := final_decision
    votes := votes
    vote_summary := "止损:" ++ toString stop_votes ++ " | 止盈:" ++
      toString profit_votes ++ " | 持有:" ++ toString hold_votes
    details :=
      { cost_price := cost_price
        current_price := current_price
        pnl_pct := pnl_pct
        atr := env.atrOf symbol
        atr_stop := get_adaptive_stop_loss cfg env symbol cost_price
        market_change := env.market_change } }

/-- The price resolution used by SmartStopManager.scan_positions:
quotes.get(symbol, 0). -/
def resolve_price_smart (quotes : List (String × ℚ)) (pos : Position) : ℚ :=
  (lookupKey quotes pos.symbol).getD 0

/-- SmartStopManager.scan_positions on explicitly supplied quotes: evaluate
every position in order, skipping those whose resolved price is not
positive. -/
def scan_positions (cfg : SmartStopConfig) (env : StopEnv)
    (positions : List Position) (quotes : List (String × ℚ))
    (force_close_check : Bool) : List SmartStopResult :=
  positions.foldr
    (fun pos acc =>
      let current_price := resolve_price_smart quotes pos
      if current_price ≤ 0 then acc
      else
        evaluate cfg env pos.symbol pos.cost_price current_price
          force_close_check :: acc)
    []

/-- Signal of src/strategies/base.py. -/
inductive Signal where
  | buy
  | sell
  | hold
deriving DecidableEq, Repr

/-- The parameters of BT_RegimeSwitchingStrategy that its next method uses. -/
structure BTParams where
  atr_multiplier : ℚ
deriving DecidableEq, Repr

/-- The attributes BT_RegimeSwitchingStrategy.next mutates: the pending-order
flag, the trailing stop price and the high-water mark of the held position. -/
structure BTStrategyState where
  order_pending : Bool
  stop_price : Option ℚ
  highest_price : ℚ
deriving DecidableEq, Repr

/-- One call of BT_RegimeSwitchingStrategy.next.  The trade signal and the
ATR parsed from its reason string, the broker position size and cash, and the
bar close are inputs the Python method reads from its collaborators.  The
truthiness test on stop_price mirrors Python: a stop of exactly 0 is falsy
and disables the trigger check. -/
def bt_next (p : BTParams) (st : BTStrategyState) (position_size : ℤ)
    (cash current_price : ℚ) (signal : Signal) (atr : ℚ) : BTStrategyState :=
  if st.order_pending then st
  else
    let st1 :=
      if 0 < position_size ∧ st.highest_price < current_price then
        let raised := { st with highest_price := current_price }
        if 0 < atr then
          let new_stop := current_price - atr * p.atr_multiplier
          match st.stop_price with
          | none => { raised with stop_price := some new_stop }
          | some sp =>
              if sp < new_stop then { raised with stop_price := some new_stop }
              else raised
        else raised
      else st
    let triggered : Bool :=
      decide (0 < position_size) &&
        match st1.stop_price with
        | some sp => decide (sp ≠ 0) && decide (current_price < sp)
        | none => false
    if triggered then
      { st1 with order_pending := true, stop_price := none }
    else
      match signal with
      | .buy =>
          if position_size = 0 ∧ 0 < cash then
            let size := int_trunc (cash / current_price * (95/100))
            if 0 < size then
              let placed := { st1 with order_pending := true }
              if 0 < atr then
                { placed with
                  stop_price := some (current_price - atr * p.atr_multiplier)
                  highest_price := current_price }
              else placed
            else st1
          else st1
      | .sell =>
          if 0 < position_size then
            { st1 with order_pending := true, stop_price := none }
          else st1
      | .hold => st1

/-- Python round to nearest with ties to the even integer, on the exact
rational value. -/
def round_half_even (x : ℚ) : ℤ :=
  let f := ⌊x⌋
  let r := x - (f : ℚ)
  if r < 1/2 then f
  else if (1/2 : ℚ) < r then f + 1
  else if f % 2 = 0 then f else f + 1

/-- Python round(x, 2), the two-decimal price normalisation in
Trader.submit_order. -/
def py_round2 (x : ℚ) : ℚ := (round_half_even (x * 100) : ℚ) / 100

/-- Textual rendering of a ValidateMessage; the numeric interpolation of the
Python f-strings is abstracted to a fixed label per message. -/
def render_message : ValidateMessage → String
  | .emergencyStopped => "交易已紧急停止"
  | .belowMinOrderValue _ _ => "订单金额低于最小限制"
  | .aboveMaxOrderValue _ _ => "订单金额超过最大限制"
  | .aboveSinglePositionLimit _ _ => "订单金额超过单笔仓位限制"
  | .aboveTotalPositionLimit _ _ => "买入后总仓位将超过限制"
  | .belowCashReserve _ => "买入后现金将低于保留要求"
  | .dailyTradeLimitReached _ => "已达到每日交易次数限制"
  | .dailyLossLimitReached _ => "已达到每日亏损限额"
  | .cooldownActive _ => "冷却中"
  | .passed => "订单验证通过"

/-- The order_info dict Trader.submit_order builds and returns. -/
structure OrderInfo where
  id : String
  symbol : String
  side : String
  quantity : ℤ
  price : Option ℚ
  value : ℚ
  order_type : String
  time : String
  status : String
  error : Option String
  message : Option String
  order_id : Option String
  stop_loss : Option ℚ
  take_profit : Option ℚ
deriving DecidableEq, Repr

/-- Trader.submit_order restricted to its effect on the risk state and its
returned order_info.  The generated uuid, the clock readings, the account
balance and positions fetched from the broker, and the broker response of the
live path are parameters; api_result is the submit response or the exception
text.  The trade-log and state-file writes of record_trade are outside this
state. -/
def submit_order (cfg : RiskConfig) (dry_run : Bool) (s : RMState)
    (symbol side : String) (quantity : ℤ) (price : Option ℚ)
    (order_type : String) (skip_risk_check set_stops : Bool)
    (oid time today : String) (now : ℚ) (account_balance : ℚ)
    (positions : List Position) (api_result : Except String String) :
    RMState × OrderInfo :=
  let price2 := price.map py_round2
  let pq := price2.getD 0
  let order_value := (quantity : ℚ) * pq
  let info0 : OrderInfo :=
    { id := oid, symbol := symbol, side := side, quantity := quantity
      price := price2, value := order_value, order_type := order_type
      time := time, status := "", error := none, message := none
      order_id := none, stop_loss := none, take_profit := none }
  let mkRecord := fun (status reason : String) (order_id : Option String) =>
    ({ id := oid, timestamp := time, symbol := symbol, side := side
       quantity := quantity, price := pq, value := order_value
       order_id := order_id, status := status, reason := reason
       pnl := none } : TradeRecord)
  let checked : RMState × Option ValidateMessage :=
    if skip_risk_check then (s, none)
    else
      let r := validate_order cfg s symbol side quantity pq account_balance
        positions today now
      if r.2.1 then (r.1, none) else (r.1, some r.2.2)
  match checked with
  | (s1, some msg) =>
      let s2 :=
        record_trade today now (mkRecord "rejected" (render_message msg) none) s1
      (s2,
        { info0 with
          status := "REJECTED"
          error := some (render_message msg) })
  | (s1, none) =>
      let buy_with_price : Bool :=
        set_stops && decide (strLower side = "buy") &&
          (match price2 with | some v => decide (v ≠ 0) | none => false)
      if dry_run then
        let s2 := record_trade today now (mkRecord "dry_run" "模拟执行" none) s1
        if buy_with_price then
          let r := set_stops_from_cost cfg s2 symbol pq
          (r.1,
            { info0 with
              status := "DRY_RUN"
              message := some "模拟下单"
              stop_loss := some r.2.1
              take_profit := some r.2.2 })
        else
          (s2, { info0 with status := "DRY_RUN", message := some "模拟下单" })
      else
        match api_result with
        | .ok response_id =>
            let s2 :=
              record_trade today now (mkRecord "submitted" "" (some response_id)) s1
            if buy_with_price then
              let r := set_stops_from_cost cfg s2 symbol pq
              (r.1,
                { info0 with
                  status := "SUBMITTED"
                  order_id := some response_id
                  stop_loss := some r.2.1
                  take_profit := some r.2.2 })
            else
              (s2,
                { info0 with
                  status := "SUBMITTED"
                  order_id := some response_id })
        | .error e =>
            let s2 := record_trade today now (mkRecord "error" e none) s1
            (s2, { info0 with status := "ERROR", error := some e })

lemma lookup_setKey_self {α : Type} (m : List (String × α)) (k : String)
    (v : α) : lookupKey (setKey m k v) k = some v := by
  induction m with
  | nil => simp [setKey, lookupKey]
  | cons hd tl ih =>
    obtain ⟨k0, v0⟩ := hd
    by_cases h : k0 = k
    · simp [setKey, lookupKey, h]
    · simp [setKey, lookupKey, h, ih]

lemma lookup_setKey_ne {α : Type} (m : List (String × α)) (k key : String)
    (v : α) (h : key ≠ k) :
    lookupKey (setKey m k v) key = lookupKey m key := by
  induction m with
  | nil => simp [setKey, lookupKey, Ne.symm h]
  | cons hd tl ih =>
    obtain ⟨k0, v0⟩ := hd
    by_cases h0 : k0 = k
    · subst h0
      simp [setKey, lookupKey, Ne.symm h]
    · simp only [setKey, if_neg h0, lookupKey]
      by_cases h1 : k0 = key
      · simp [h1]
      · simp [h1, ih]

lemma getDaily_lazy (m : List (String × DailyStats)) (day d : String) :
    getDaily (get_daily_stats_lazy m day).2 d = getDaily m d := by
  unfold get_daily_stats_lazy getDaily
  cases h : lookupKey m day with
  | some ds => rfl
  | none =>
    by_cases hd : d = day
    · subst hd
      rw [lookup_setKey_self, h]
      rfl
    · rw [lookup_setKey_ne _ _ _ _ hd]

lemma validate_order_fst (cfg : RiskConfig) (s : RMState)
    (symbol side : String) (quantity : ℤ) (price account_balance : ℚ)
    (current_positions : List Position) (today : String) (now : ℚ) :
    (validate_order cfg s symbol side quantity price account_balance
        current_positions today now).1 = s ∨
    (validate_order cfg s symbol side quantity price account_balance
        current_positions today now).1 =
      { s with daily_stats := (get_daily_stats_lazy s.daily_stats today).2 } := by
  simp only [validate_order]
  by_cases h0 : s.emergency_stop = true
  · rw [if_pos h0]
    exact Or.inl rfl
  · rw [if_neg h0]
    by_cases h1 : (quantity : ℚ) * price < cfg.min_order_value
    · rw [if_pos h1]
      exact Or.inl rfl
    · rw [if_neg h1]
      by_cases h2 : cfg.max_order_value < (quantity : ℚ) * price
      · rw [if_pos h2]
        exact Or.inl rfl
      · rw [if_neg h2]
        by_cases h3 : get_effective_balance cfg account_balance *
            cfg.max_single_position_pct < (quantity : ℚ) * price
        · rw [if_pos h3]
          exact Or.inl rfl
        · rw [if_neg h3]
          by_cases h4 : strLower side = "buy" ∧
              get_effective_balance cfg account_balance *
                cfg.max_total_position_pct <
              (List.map (fun p => p.market_value.getD 0)
                current_positions).sum + (quantity : ℚ) * price
          · rw [if_pos h4]
            exact Or.inl rfl
          · rw [if_neg h4]
            by_cases h5 : strLower side = "buy" ∧
                get_effective_balance cfg account_balance -
                  (List.map (fun p => p.market_value.getD 0)
                    current_positions).sum - (quantity : ℚ) * price <
                get_effective_balance cfg account_balance *
                  cfg.min_cash_reserve_pct
            · rw [if_pos h5]
              exact Or.inl rfl
            · rw [if_neg h5]
              refine Or.inr ?_
              cases lookupKey s.last_order_time symbol <;> dsimp only <;>
                split_ifs <;> rfl

lemma validate_order_emergency_eq (cfg : RiskConfig) (s : RMState)
    (symbol side : String) (quantity : ℤ) (price account_balance : ℚ)
    (current_positions : List Position) (today : String) (now : ℚ)
    (h : s.emergency_stop = true) :
    validate_order cfg s symbol side quantity price account_balance
        current_positions today now = (s, false, .emergencyStopped) := by
  unfold validate_order
  rw [h]
  simp

lemma validate_order_getDaily (cfg : RiskConfig) (s : RMState)
    (symbol side : String) (quantity : ℤ) (price account_balance : ℚ)
    (current_positions : List Position) (today : String) (now : ℚ) (d : String) :
    getDaily (validate_order cfg s symbol side quantity price account_balance
        current_positions today now).1.daily_stats d
      = getDaily s.daily_stats d := by
  rcases validate_order_fst cfg s symbol side quantity price account_balance
    current_positions today now with h | h <;> rw [h]
  exact getDaily_lazy _ _ _

/-- C2: while the emergency flag is set, validate_order rejects every order
at check 1 with the emergency message, leaving the state untouched, whatever
the symbol, side, quantity, price, balance and positions are. -/
theorem validate_order_emergency_rejects (cfg : RiskConfig) (s : RMState)
    (symbol side : String) (quantity : ℤ) (price account_balance : ℚ)
    (current_positions : List Position) (today : String) (now : ℚ)
    (h : s.emergency_stop = true) :
    validate_order cfg s symbol side quantity price account_balance
        current_positions today now = (s, false, .emergencyStopped) :=
  validate_order_emergency_eq cfg s symbol side quantity price account_balance
    current_positions today now h

/-- The empty risk state a fresh RiskManager starts from. -/
def rm0 : RMState := ⟨false, [], [], []⟩

/-- A risk state whose emergency flag is active. -/
def rmE : RMState := ⟨true, [], [], []⟩

theorem validate_order_emergency_rejects_witness :
    validate_order RiskConfig.default rmE "AAPL.US" "buy" 10 100 100000 []
        "2026-10-12" 0 = (rmE, false, .emergencyStopped) :=
  validate_order_emergency_rejects RiskConfig.default rmE "AAPL.US" "buy" 10
    100 100000 [] "2026-10-12" 0 rfl

/-- C3 counterexample: a validate_order call that passes the first five
checks inserts a zero day entry into the daily-stats map, so the state after
the call differs from the state before it. -/
theorem validate_order_state_cex :
    (validate_order RiskConfig.default rm0 "AAPL.US" "buy" 10 100 100000 []
        "2026-10-12" 0).1 ≠ rm0 := by
  norm_num +decide [validate_order, rm0, RiskConfig.default,
    get_effective_balance, get_daily_stats_lazy, lookupKey, setKey, strLower]

/-- C3 as amended: validate_order never changes the emergency flag, the
cooldown map or the stop levels, and changes the daily-stats map at most by
inserting the zero record for today, so every observable daily statistic is
the same before and after the call. -/
theorem validate_order_state_effect (cfg : RiskConfig) (s : RMState)
    (symbol side : String) (quantity : ℤ) (price account_balance : ℚ)
    (current_positions : List Position) (today : String) (now : ℚ) :
    ((validate_order cfg s symbol side quantity price account_balance
        current_positions today now).1.emergency_stop = s.emergency_stop) ∧
    ((validate_order cfg s symbol side quantity price account_balance
        current_positions today now).1.last_order_time = s.last_order_time) ∧
    ((validate_order cfg s symbol side quantity price account_balance
        current_positions today now).1.position_stops = s.position_stops) ∧
    ((validate_order cfg s symbol side quantity price account_balance
        current_positions today now).1.daily_stats = s.daily_stats ∨
      (validate_order cfg s symbol side quantity price account_balance
        current_positions today now).1.daily_stats =
        (get_daily_stats_lazy s.daily_stats today).2) ∧
    (∀ d, getDaily (validate_order cfg s symbol side quantity price
        account_balance current_positions today now).1.daily_stats d
          = getDaily s.daily_stats d) := by
  rcases validate_order_fst cfg s symbol side quantity price account_balance
    current_positions today now with h | h <;> rw [h]
  · exact ⟨rfl, rfl, rfl, Or.inl rfl, fun d => rfl⟩
  · exact ⟨rfl, rfl, rfl, Or.inr rfl, fun d => getDaily_lazy _ _ _⟩

/-- A world whose state file and memory agree on a clear emergency flag. -/
def w0 : RMWorld := ⟨rm0, ⟨false, [], []⟩, []⟩

/-- The world after calling emergency_stop on w0. -/
def w1 : RMWorld := emergency_stop_op "manual" w0

/-- The world after a state save while stopped followed by resume_trading. -/
def w2 : RMWorld := resume_trading_op (save_state w1)

/-- C4: the code at the spec divergence.  emergency_stop and resume_trading
set the in-memory flag and append the audit event, but never write the state
file, so a RiskManager reconstructed from that file observes the stale flag;
the file catches up only when some later operation calls _save_state. -/
theorem emergency_stop_not_persisted :
    w1.mem.emergency_stop = true ∧
    w1.events_log = [RiskEvent.emergencyStopEvent "manual"] ∧
    w1.state_file = w0.state_file ∧
    (load_state w1.state_file).emergency_stop = false ∧
    w2.mem.emergency_stop = false ∧
    (load_state w2.state_file).emergency_stop = true := by
  decide

/-- C5: the order-value window is necessary for validation to pass, and with
the emergency flag clear an order value outside the window is rejected with
the message naming the violated bound. -/
theorem validate_order_value_bounds (cfg : RiskConfig) (s : RMState)
    (symbol side : String) (quantity : ℤ) (price account_balance : ℚ)
    (current_positions : List Position) (today : String) (now : ℚ) :
    ((validate_order cfg s symbol side quantity price account_balance
        current_positions today now).2.1 = true →
      cfg.min_order_value ≤ (quantity : ℚ) * price ∧
        (quantity : ℚ) * price ≤ cfg.max_order_value) ∧
    (s.emergency_stop = false →
      (quantity : ℚ) * price < cfg.min_order_value →
      validate_order cfg s symbol side quantity price account_balance
          current_positions today now
        = (s, false, .belowMinOrderValue ((quantity : ℚ) * price)
            cfg.min_order_value)) ∧
    (s.emergency_stop = false →
      ¬(quantity : ℚ) * price < cfg.min_order_value →
      cfg.max_order_value < (quantity : ℚ) * price →
      validate_order cfg s symbol side quantity price account_balance
          current_positions today now
        = (s, false, .aboveMaxOrderValue ((quantity : ℚ) * price)
            cfg.max_order_value)) := by
  have hbelow : s.emergency_stop = false →
      (quantity : ℚ) * price < cfg.min_order_value →
      validate_order cfg s symbol side quantity price account_balance
          current_positions today now
        = (s, false, .belowMinOrderValue ((quantity : ℚ) * price)
            cfg.min_order_value) := by
    intro he h1
    simp only [validate_order]
    rw [if_neg (by simp [he]), if_pos h1]
  have habove : s.emergency_stop = false →
      ¬(quantity : ℚ) * price < cfg.min_order_value →
      cfg.max_order_value < (quantity : ℚ) * price →
      validate_order cfg s symbol side quantity price account_balance
          current_positions today now
        = (s, false, .aboveMaxOrderValue ((quantity : ℚ) * price)
            cfg.max_order_value) := by
    intro he h1 h2
    simp only [validate_order]
    rw [if_neg (by simp [he]), if_neg h1, if_pos h2]
  refine ⟨?_, hbelow, habove⟩
  intro hok
  by_cases he : s.emergency_stop = true
  · rw [validate_order_emergency_eq cfg s symbol side quantity price
      account_balance current_positions today now he] at hok
    simp at hok
  · have he' : s.emergency_stop = false := by simpa using he
    by_cases h1 : (quantity : ℚ) * price < cfg.min_order_value
    · rw [hbelow he' h1] at hok
      simp at hok
    · by_cases h2 : cfg.max_order_value < (quantity : ℚ) * price
      · rw [habove he' h1 h2] at hok
        simp at hok
      · exact ⟨le_of_not_lt h1, le_of_not_lt h2⟩

theorem validate_order_value_bounds_witness :
    validate_order RiskConfig.default rm0 "AAPL.US" "buy" 1 50 100000 []
        "2026-10-12" 0
      = (rm0, false, .belowMinOrderValue (((1 : ℤ) : ℚ) * 50)
          RiskConfig.default.min_order_value) :=
  (validate_order_value_bounds RiskConfig.default rm0 "AAPL.US" "buy" 1 50
      100000 [] "2026-10-12" 0).2.1 rfl (by norm_num [RiskConfig.default])

/-- C6: position sizing is deterministic, and whenever it returns a quantity
(the Python code returns exactly when the price is nonzero) that quantity
times the price never exceeds the configured maximum order value, for any
nonnegative configured maximum. -/
theorem calculate_position_size_spec (cfg : RiskConfig) (symbol : String)
    (price account_balance : ℚ) (risk_pct : Option ℚ) (q : ℤ)
    (hq : calculate_position_size cfg symbol price account_balance risk_pct
      = some q)
    (hmax : 0 ≤ cfg.max_order_value) :
    calculate_position_size cfg symbol price account_balance risk_pct
      = calculate_position_size cfg symbol price account_balance risk_pct ∧
    (q : ℚ) * price ≤ cfg.max_order_value := by
  refine ⟨rfl, ?_⟩
  simp only [calculate_position_size] at hq
  by_cases hp : price = 0
  · rw [if_pos hp] at hq
    exact absurd hq (by simp)
  · rw [if_neg hp] at hq
    rw [Option.some_inj] at hq
    set rp := (match risk_pct with
      | some r => if r = 0 then cfg.max_single_position_pct else r
      | none => cfg.max_single_position_pct) with hrp
    set mv := min (get_effective_balance cfg account_balance * rp)
      cfg.max_order_value with hmvdef
    have hmvle : mv ≤ cfg.max_order_value := min_le_right _ _
    rcases lt_or_gt_of_ne hp with hneg | hpos
    · have hq0 : (0 : ℤ) ≤ q := hq ▸ le_max_left 0 _
      have hle : (q : ℚ) * price ≤ 0 :=
        mul_nonpos_of_nonneg_of_nonpos (by exact_mod_cast hq0)
          (le_of_lt hneg)
      linarith
    · by_cases ht : 0 ≤ mv / price
      · have h1 : int_trunc (mv / price) = ⌊mv / price⌋ := by
          rw [int_trunc, if_pos ht]
        have h2 : (0 : ℤ) ≤ ⌊mv / price⌋ := Int.floor_nonneg.mpr ht
        have hqq : q = ⌊mv / price⌋ := by rw [← hq, h1, max_eq_right h2]
        have h3 : (q : ℚ) ≤ mv / price := by
          rw [hqq]
          exact Int.floor_le _
        have h4 : (q : ℚ) * price ≤ mv / price * price :=
          mul_le_mul_of_nonneg_right h3 (le_of_lt hpos)
        rw [div_mul_cancel₀ _ hp] at h4
        linarith
      · push_neg at ht
        have h1 : int_trunc (mv / price) = -⌊-(mv / price)⌋ := by
          rw [int_trunc, if_neg (not_le.mpr ht)]
        have h2 : (0 : ℤ) ≤ ⌊-(mv / price)⌋ :=
          Int.floor_nonneg.mpr (by linarith)
        have hqq : q = 0 := by
          rw [← hq, h1, max_eq_left (by omega)]
        rw [hqq]
        simpa using hmax

theorem calculate_position_size_spec_witness :
    ((100 : ℤ) : ℚ) * 100 ≤ RiskConfig.default.max_order_value :=
  (calculate_position_size_spec RiskConfig.default "AAPL.US" 100 100000 none
    100
    (by norm_num +decide [calculate_position_size, get_effective_balance,
      int_trunc, RiskConfig.default, min_def])
    (by norm_num [RiskConfig.default])).2

lemma record_trade_count (s : RMState) (today : String) (now : ℚ)
    (t : TradeRecord) :
    (getDaily (record_trade today now t s).daily_stats today).trade_count
      = (getDaily s.daily_stats today).trade_count + 1 := by
  cases hl : lookupKey s.daily_stats today <;>
    cases hp : t.pnl <;>
      by_cases hs : t.side = "buy" <;>
        simp [record_trade, get_daily_stats_lazy, getDaily, hl, hp, hs,
          lookup_setKey_self, DailyStats.init]

lemma record_trade_buy_value (s : RMState) (today : String) (now : ℚ)
    (t : TradeRecord) (hside : t.side = "buy") :
    (getDaily (record_trade today now t s).daily_stats today).buy_value
      = (getDaily s.daily_stats today).buy_value + t.value := by
  cases hl : lookupKey s.daily_stats today <;>
    cases hp : t.pnl <;>
      simp [record_trade, get_daily_stats_lazy, getDaily, hl, hp, hside,
        lookup_setKey_self, DailyStats.init]

lemma record_trade_fold_buy (today : String) (now : ℚ)
    (trades : List TradeRecord) :
    ∀ s : RMState, (∀ t ∈ trades, t.side = "buy") →
      (getDaily (trades.foldl (fun st t => record_trade today now t st)
          s).daily_stats today).buy_value
        = (getDaily s.daily_stats today).buy_value
            + (trades.map TradeRecord.value).sum ∧
      (getDaily (trades.foldl (fun st t => record_trade today now t st)
          s).daily_stats today).trade_count
        = (getDaily s.daily_stats today).trade_count
            + (trades.length : ℤ) := by
  induction trades with
  | nil =>
    intro s _
    simp
  | cons t ts ih =>
    intro s hbuy
    have ht : t.side = "buy" := hbuy t (by simp)
    have hts : ∀ x ∈ ts, x.side = "buy" := fun x hx => hbuy x (by simp [hx])
    have h := ih (record_trade today now t s) hts
    simp only [List.foldl_cons]
    constructor
    · rw [h.1, record_trade_buy_value s today now t ht]
      simp [List.sum_cons]
      ring
    · rw [h.2, record_trade_count s today now t]
      simp only [List.length_cons]
      push_cast
      ring

/-- C7: starting from a day with no recorded trades, folding record_trade
over N buy records of values v1..vN leaves that day with buy_value equal to
the sum of the values and trade_count equal to N. -/
theorem record_trade_daily_additive (s : RMState) (today : String) (now : ℚ)
    (trades : List TradeRecord)
    (h0 : lookupKey s.daily_stats today = none)
    (hbuy : ∀ t ∈ trades, t.side = "buy") :
    (getDaily (trades.foldl (fun st t => record_trade today now t st)
        s).daily_stats today).buy_value
      = (trades.map TradeRecord.value).sum ∧
    (getDaily (trades.foldl (fun st t => record_trade today now t st)
        s).daily_stats today).trade_count = (trades.length : ℤ) := by
  have h := record_trade_fold_buy today now trades s hbuy
  have hz : getDaily s.daily_stats today = DailyStats.init := by
    simp [getDaily, h0]
  rw [hz] at h
  simpa [DailyStats.init] using h

/-- A buy trade record of the given value, used as a concrete input. -/
def tr_buy (v : ℚ) : TradeRecord :=
  ⟨"id1", "t1", "AAPL.US", "buy", 1, v, v, none, "dry_run", "", none⟩

theorem record_trade_daily_additive_witness :
    (getDaily (([tr_buy 100, tr_buy 250].foldl
        (fun st t => record_trade "2026-10-12" 0 t st) rm0)).daily_stats
        "2026-10-12").buy_value
      = (([tr_buy 100, tr_buy 250]).map TradeRecord.value).sum ∧
    (getDaily (([tr_buy 100, tr_buy 250].foldl
        (fun st t => record_trade "2026-10-12" 0 t st) rm0)).daily_stats
        "2026-10-12").trade_count
      = (([tr_buy 100, tr_buy 250] : List TradeRecord).length : ℤ) :=
  record_trade_daily_additive rm0 "2026-10-12" 0 [tr_buy 100, tr_buy 250]
    rfl (by decide)

lemma threshold_combine (a b c : StopVote)
    (hd : a.decision ≠ StopDecision.hold)
    (hsupp : b.decision = a.decision ∨ c.decision = a.decision) :
    (if (2 : ℤ) ≤ ((List.countP
          (fun v => decide (v.decision = StopDecision.take_profit))
          [a, b, c] : ℕ) : ℤ)
      then StopDecision.take_profit
      else if (2 : ℤ) ≤ ((List.countP
          (fun v => decide (v.decision = StopDecision.stop_loss))
          [a, b, c] : ℕ) : ℤ)
      then StopDecision.stop_loss
      else StopDecision.hold) = a.decision := by
  cases h1 : a.decision <;> cases h2 : b.decision <;> cases h3 : c.decision <;>
    simp_all [List.countP_cons, List.countP_nil]

/-- An environment for the counterexample: small ATR, not near the close,
flat benchmark. -/
def env0 : StopEnv where
  atrOf := fun _ => 1/10
  is_close_time := false
  market_change := 0

/-- C1 counterexample: at cost 100 and price 96.5 with a small ATR the
Adaptive vote is StopLoss, yet evaluate returns Hold, because the source
combines the three votes by threshold counting and a lone Adaptive vote
never decides; the claimed override does not exist in the code. -/
theorem evaluate_adaptive_override_cex :
    (vote_atr_stop SmartStopConfig.default env0 "AAPL.US" 100
        (193/2)).decision = StopDecision.stop_loss ∧
    (evaluate SmartStopConfig.default env0 "AAPL.US" 100 (193/2)
        false).final_decision = StopDecision.hold ∧
    StopDecision.hold ≠ StopDecision.stop_loss := by
  refine ⟨?_, ?_, by decide⟩ <;>
    norm_num +decide [evaluate, vote_atr_stop, vote_close_only,
      vote_relative_market, get_adaptive_stop_loss, SmartStopConfig.default,
      env0, List.countP_cons, List.countP_nil, min_def, max_def]

/-- C1 as amended: with the default vote_threshold of 2, a non-Hold Adaptive
vote decides the evaluation exactly when at least one of the other two votes
carries the same decision. -/
theorem evaluate_adaptive_vote_with_support (cfg : SmartStopConfig)
    (env : StopEnv) (symbol : String) (cost_price current_price : ℚ)
    (force_close_check : Bool)
    (hth : cfg.vote_threshold = 2)
    (hd : (vote_atr_stop cfg env symbol cost_price current_price).decision
      ≠ StopDecision.hold)
    (hsupp : (vote_close_only cfg env symbol cost_price current_price
          force_close_check).decision
        = (vote_atr_stop cfg env symbol cost_price current_price).decision ∨
      (vote_relative_market cfg env symbol cost_price
          current_price).decision
        = (vote_atr_stop cfg env symbol cost_price current_price).decision) :
    (evaluate cfg env symbol cost_price current_price
        force_close_check).final_decision
      = (vote_atr_stop cfg env symbol cost_price current_price).decision := by
  simp only [evaluate]
  rw [hth]
  exact threshold_combine _ _ _ hd hsupp

/-- An environment where the close-only vote is active. -/
def env1 : StopEnv where
  atrOf := fun _ => 1
  is_close_time := true
  market_change := 0

theorem evaluate_adaptive_vote_with_support_witness :
    (evaluate SmartStopConfig.default env1 "AAPL.US" 100 80
        false).final_decision
      = (vote_atr_stop SmartStopConfig.default env1 "AAPL.US" 100
          80).decision := by
  apply evaluate_adaptive_vote_with_support
  · rfl
  · norm_num +decide [vote_atr_stop, get_adaptive_stop_loss,
      SmartStopConfig.default, env1, min_def, max_def]
  · left
    norm_num +decide [vote_atr_stop, vote_close_only, get_adaptive_stop_loss,
      SmartStopConfig.default, env1, min_def, max_def]

/-- C8 counterexample: a next call that opens a new position resets the
high-water mark to the entry price, here from 10 down to 5, so the mark is
not monotone across arbitrary successive calls. -/
theorem bt_next_highwater_cex :
    (bt_next ⟨4⟩ ⟨false, none, 10⟩ 0 100 5 Signal.buy 1).highest_price = 5 ∧
    ((5 : ℚ) < 10) := by
  constructor
  · norm_num +decide [bt_next, int_trunc]
  · norm_num

lemma bt_next_highest_of_pos (p : BTParams) (st : BTStrategyState)
    (position_size : ℤ) (cash current_price : ℚ) (signal : Signal) (atr : ℚ)
    (hpos : 0 < position_size) (hpend : st.order_pending = false) :
    (bt_next p st position_size cash current_price signal atr).highest_price
      = if st.highest_price < current_price then current_price
        else st.highest_price := by
  have hpos0 : ¬position_size = 0 := by omega
  cases hsp : st.stop_price <;> cases signal <;>
    simp [bt_next, hpend, hpos, hpos0, hsp] <;>
      split_ifs <;> simp_all

/-- C8 as amended: while a position is held, a next call never lowers the
high-water mark, and raises it to the bar close whenever that close exceeds
the stored mark; the reset happens only when a new position is opened. -/
theorem bt_next_highwater_mono (p : BTParams) (st : BTStrategyState)
    (position_size : ℤ) (cash current_price : ℚ) (signal : Signal) (atr : ℚ)
    (hpos : 0 < position_size) :
    st.highest_price ≤
      (bt_next p st position_size cash current_price signal
        atr).highest_price ∧
    (st.order_pending = false → st.highest_price < current_price →
      (bt_next p st position_size cash current_price signal
        atr).highest_price = current_price) := by
  constructor
  · by_cases hpend : st.order_pending = true
    · simp [bt_next, hpend]
    · have hb : st.order_pending = false := by simpa using hpend
      rw [bt_next_highest_of_pos p st position_size cash current_price
        signal atr hpos hb]
      split_ifs with h
      · exact le_of_lt h
      · exact le_refl _
  · intro hb hlt
    rw [bt_next_highest_of_pos p st position_size cash current_price signal
      atr hpos hb, if_pos hlt]

theorem bt_next_highwater_mono_witness :
    (⟨false, some 9, 8⟩ : BTStrategyState).highest_price ≤
      (bt_next ⟨4⟩ ⟨false, some 9, 8⟩ 10 0 12 Signal.hold 1).highest_price ∧
    (bt_next ⟨4⟩ ⟨false, some 9, 8⟩ 10 0 12 Signal.hold 1).highest_price
      = 12 := by
  have h := bt_next_highwater_mono ⟨4⟩ ⟨false, some 9, 8⟩ 10 0 12 Signal.hold
    1 (by norm_num)
  exact ⟨h.1, h.2 rfl (by norm_num)⟩

lemma record_trade_last_order (s : RMState) (today : String) (now : ℚ)
    (t : TradeRecord) :
    (record_trade today now t s).last_order_time
      = setKey s.last_order_time t.symbol now := rfl

/-- C9: when the risk check is not skipped and validate_order rejects, the
rejected order is still recorded: the trade count of the day rises by one and
the cooldown timestamp of the symbol is reset to now, and the order comes
back with the REJECTED status. -/
theorem submit_order_rejected_records (cfg : RiskConfig) (dry_run : Bool)
    (s : RMState) (symbol side : String) (quantity : ℤ) (price : Option ℚ)
    (order_type : String) (set_stops : Bool) (oid time today : String)
    (now account_balance : ℚ) (positions : List Position)
    (api_result : Except String String)
    (hrej : (validate_order cfg s symbol side quantity
        ((price.map py_round2).getD 0) account_balance positions today
        now).2.1 = false) :
    (getDaily (submit_order cfg dry_run s symbol side quantity price
        order_type false set_stops oid time today now account_balance
        positions api_result).1.daily_stats today).trade_count
      = (getDaily s.daily_stats today).trade_count + 1 ∧
    lookupKey (submit_order cfg dry_run s symbol side quantity price
        order_type false set_stops oid time today now account_balance
        positions api_result).1.last_order_time symbol = some now ∧
    (submit_order cfg dry_run s symbol side quantity price order_type false
        set_stops oid time today now account_balance positions
        api_result).2.status = "REJECTED" := by
  simp only [submit_order, Bool.false_eq_true, if_false, hrej]
  refine ⟨?_, ?_, trivial⟩
  · rw [record_trade_count]
    exact congrArg (fun d => d + 1)
      (congrArg DailyStats.trade_count (validate_order_getDaily cfg s symbol
        side quantity ((price.map py_round2).getD 0) account_balance
        positions today now today))
  · rw [record_trade_last_order]
    exact lookup_setKey_self _ _ _

theorem submit_order_rejected_records_witness :
    (getDaily (submit_order RiskConfig.default true rmE "AAPL.US" "buy" 10
        (some 100) "limit" false true "id1" "t1" "2026-10-12" 0 100000 []
        (Except.ok "oid")).1.daily_stats "2026-10-12").trade_count
      = (getDaily rmE.daily_stats "2026-10-12").trade_count + 1 ∧
    lookupKey (submit_order RiskConfig.default true rmE "AAPL.US" "buy" 10
        (some 100) "limit" false true "id1" "t1" "2026-10-12" 0 100000 []
        (Except.ok "oid")).1.last_order_time "AAPL.US" = some 0 ∧
    (submit_order RiskConfig.default true rmE "AAPL.US" "buy" 10 (some 100)
        "limit" false true "id1" "t1" "2026-10-12" 0 100000 []
        (Except.ok "oid")).2.status = "REJECTED" :=
  submit_order_rejected_records RiskConfig.default true rmE "AAPL.US" "buy"
    10 (some 100) "limit" true "id1" "t1" "2026-10-12" 0 100000 []
    (Except.ok "oid") (by simp [validate_order, rmE])

/-- C10: both scanners drop a position whose resolved current price is not
positive: the scan of the position list starting with it equals the scan of
the remaining list, so no snapshot and no exit decision is produced for it. -/
theorem scan_skip_nonpositive_price (cfg_r : RiskConfig) (s : RMState)
    (cfg_s : SmartStopConfig) (env : StopEnv) (p : Position)
    (rest : List Position) (quotes : List (String × ℚ)) (force : Bool) :
    (resolve_price_risk quotes p ≤ 0 →
      scan_positions_for_exit cfg_r s (p :: rest) quotes
        = scan_positions_for_exit cfg_r s rest quotes) ∧
    (resolve_price_smart quotes p ≤ 0 →
      scan_positions cfg_s env (p :: rest) quotes force
        = scan_positions cfg_s env rest quotes force) := by
  constructor <;> intro h <;>
    simp [scan_positions_for_exit, scan_positions, h]

/-- A held position with no quote and no current_price entry. -/
def pos_noquote : Position := ⟨"XYZ.US", 10, 50, none, none⟩

theorem scan_skip_nonpositive_price_witness :
    scan_positions_for_exit RiskConfig.default rm0 [pos_noquote] []
      = scan_positions_for_exit RiskConfig.default rm0 [] [] ∧
    scan_positions SmartStopConfig.default env0 [pos_noquote] [] false
      = scan_positions SmartStopConfig.default env0 [] [] false := by
  have h := scan_skip_nonpositive_price RiskConfig.default rm0
    SmartStopConfig.default env0 pos_noquote [] [] false
  exact ⟨h.1 (by simp [resolve_price_risk, lookupKey, pos_noquote]),
         h.2 (by simp [resolve_price_smart, lookupKey, pos_noquote])⟩

end QuantTrading
